import Mathlib

/-!
Shallow embedding of the Weather-Wizard backend (Python sources:
`cache_service.py`, `weather_service.py`, `ai_weather_service.py`, `app.py`)
and proofs about its specified behaviour.

Numbers are modelled as rationals (`ℚ`), Python strings as Lean `String`s,
Python's substring test (`pat in s`) and `str.replace` as executable
functions on the underlying character lists.
-/

/-- `charsHavePre pat s` : `pat` is a prefix of the character list `s`. -/
def charsHavePre : List Char → List Char → Bool
  | [], _ => true
  | _ :: _, [] => false
  | p :: ps, c :: cs => p == c && charsHavePre ps cs

/-- `charsHaveSub pat s` : `pat` occurs as a contiguous sublist of `s`. -/
def charsHaveSub (pat : List Char) : List Char → Bool
  | [] => charsHavePre pat []
  | c :: cs => charsHavePre pat (c :: cs) || charsHaveSub pat cs

/-- Python's `pat in s` substring test. -/
def strContains (s pat : String) : Bool :=
  charsHaveSub pat.data s.data

/-- Fuel-driven worker for `pyReplace`: replaces non-overlapping occurrences
of `pat` left to right, as Python's `str.replace` does. -/
def replaceFrom : Nat → List Char → List Char → List Char → List Char
  | 0, s, _, _ => s
  | _, [], _, _ => []
  | Nat.succ n, c :: cs, pat, rep =>
    if charsHavePre pat (c :: cs) then
      rep ++ replaceFrom n (List.drop pat.length (c :: cs)) pat rep
    else
      c :: replaceFrom n cs pat rep

/-- Python's `s.replace(pat, rep)` (all non-overlapping occurrences,
left to right), for a non-empty pattern. -/
def pyReplace (s pat rep : String) : String :=
  String.mk (replaceFrom (s.data.length + 1) s.data pat.data rep.data)

/-- `weather_service.py` lines 76–79 / 174–177: the error message is
redacted only by replacing the literal API key with `[REDACTED]`. -/
def redactSecret (apiKey msg : String) : String :=
  if strContains msg apiKey then pyReplace msg apiKey "[REDACTED]" else msg

/-- `weather_service.py` line 90: message of the exception raised by
`WeatherService.get_current_weather` on an upstream failure. -/
def currentWeatherErrorMessage (apiKey upstreamMsg : String) : String :=
  "Failed to fetch current weather data: " ++ redactSecret apiKey upstreamMsg

/-- `weather_service.py` line 188: message of the exception raised by
`WeatherService.get_forecast` on an upstream failure. -/
def forecastErrorMessage (apiKey upstreamMsg : String) : String :=
  "Failed to fetch forecast data: " ++ redactSecret apiKey upstreamMsg

/-- `ai_weather_service.py` line 67: message of the exception raised by
`AIWeatherService.get_enhanced_forecast` on an upstream failure.
The upstream message is interpolated verbatim — no redaction. -/
def enhancedForecastErrorMessage (upstreamMsg : String) : String :=
  "Failed to fetch enhanced forecast: " ++ upstreamMsg

/-- `ai_weather_service.py` line 198: message of the exception raised by
`AIWeatherService.get_personalized_alerts` on a failure (no redaction). -/
def personalizedAlertsErrorMessage (upstreamMsg : String) : String :=
  "Failed to generate personalized alerts: " ++ upstreamMsg

/-- `ai_weather_service.py` line 386: message of the exception raised by
`AIWeatherService.get_clothing_recommendations` on a failure (no redaction). -/
def clothingRecommendationsErrorMessage (upstreamMsg : String) : String :=
  "Failed to generate clothing recommendations: " ++ upstreamMsg

/-- A dynamically-typed Python value, as stored in the cache and returned by
the weather services.  Covers the shapes the repository stores: `None`,
booleans, numbers, strings, lists and string-keyed dicts. -/
inductive PyVal where
  | pynone : PyVal
  | pybool (b : Bool) : PyVal
  | pynum (q : ℚ) : PyVal
  | pystr (s : String) : PyVal
  | pylist (items : List PyVal) : PyVal
  | pydict (entries : List (String × PyVal)) : PyVal

/-- Python truthiness (`if cached_data:`): `None`, `False`, `0`, `""`,
`[]` and `{}` are falsy, everything else truthy. -/
def PyVal.truthy : PyVal → Bool
  | .pynone => false
  | .pybool b => b
  | .pynum q => !(q == 0)
  | .pystr s => !(s == "")
  | .pylist items => !items.isEmpty
  | .pydict entries => !entries.isEmpty

/-- `cache_service.py` lines 7–17: `self.cache` is a dict mapping a key to a
`(value, timestamp)` pair (modelled as an association list with at most one
entry per key), `self.expiry` the TTL in seconds fixed at construction. -/
structure CacheService (α : Type) where
  cache : List (String × α × ℚ)
  expiry : ℚ

/-- A fresh cache (`self.cache = {}`), `cache_service.py` line 14. -/
def CacheService.init (α : Type) (expiry : ℚ) : CacheService α :=
  ⟨[], expiry⟩

/-- Dict lookup `self.cache[key]` (with `key in self.cache` as `isSome`). -/
def CacheService.find (c : CacheService α) (key : String) : Option (α × ℚ) :=
  (c.cache.find? (fun e => e.1 == key)).map (fun e => e.2)

/-- `del self.cache[key]`. -/
def CacheService.del (c : CacheService α) (key : String) : CacheService α :=
  ⟨c.cache.filter (fun e => !(e.1 == key)), c.expiry⟩

/-- `cache_service.py` lines 19–42, `CacheService.get`: if the key is present
and `now - timestamp < expiry` return the value; if present but expired,
delete the entry and return `None`; otherwise return `None`.  The returned
pair is (result, cache state after the call), `now` being `time.time()`. -/
def CacheService.get (c : CacheService α) (key : String) (now : ℚ) :
    Option α × CacheService α :=
  match c.find key with
  | Option.none => (Option.none, c)
  | Option.some (value, timestamp) =>
    if now - timestamp < c.expiry then (Option.some value, c)
    else (Option.none, c.del key)

/-- `cache_service.py` lines 44–53, `CacheService.set`:
`self.cache[key] = (value, time.time())`. -/
def CacheService.set (c : CacheService α) (key : String) (value : α) (now : ℚ) :
    CacheService α :=
  ⟨(key, value, now) :: (c.del key).cache, c.expiry⟩

/-- `cache_service.py` lines 55–71, `CacheService.delete`: returns whether the
key was present, together with the new state. -/
def CacheService.delete (c : CacheService α) (key : String) :
    Bool × CacheService α :=
  match c.find key with
  | Option.none => (false, c)
  | Option.some _ => (true, c.del key)

/-- `cache_service.py` lines 78–89, `CacheService.cleanup`: removes exactly
the entries whose age is ≥ expiry. -/
def CacheService.cleanup (c : CacheService α) (now : ℚ) : CacheService α :=
  ⟨c.cache.filter (fun e => !(decide (now - e.2.2 ≥ c.expiry))), c.expiry⟩

/-- At the Python call site, `CacheService.get` returns the stored object or
the object `None`; a stored `None` and a miss are both surfaced as `None`. -/
def CacheService.getPy (c : CacheService PyVal) (key : String) (now : ℚ) :
    PyVal × CacheService PyVal :=
  ((c.get key now).1.getD PyVal.pynone, (c.get key now).2)

/-- `weather_service.py` lines 20–73, `WeatherService.get_current_weather`,
success path: consult the cache under `"current_weather_" + city`; if the
cached object is truthy return it, otherwise fetch fresh data upstream
(the formatted upstream result is the parameter `upstream`), cache it and
return it.  Result is (returned value, cache state afterwards). -/
def WeatherService.get_current_weather (cache : CacheService PyVal)
    (city : String) (now : ℚ) (upstream : PyVal) :
    PyVal × CacheService PyVal :=
  if ((cache.getPy ("current_weather_" ++ city) now).1).truthy then
    cache.getPy ("current_weather_" ++ city) now
  else
    (upstream, ((cache.getPy ("current_weather_" ++ city) now).2).set
        ("current_weather_" ++ city) upstream now)

/-- `weather_service.py` lines 92–171, `WeatherService.get_forecast`, success
path: same shape as `get_current_weather` with cache key
`"forecast_" + city`. -/
def WeatherService.get_forecast (cache : CacheService PyVal)
    (city : String) (now : ℚ) (upstream : PyVal) :
    PyVal × CacheService PyVal :=
  if ((cache.getPy ("forecast_" ++ city) now).1).truthy then
    cache.getPy ("forecast_" ++ city) now
  else
    (upstream, ((cache.getPy ("forecast_" ++ city) now).2).set
        ("forecast_" ++ city) upstream now)

/-- User alert preferences, `ai_weather_service.py` lines 106–109, after
resolution of the dict `get` defaults. -/
structure Prefs where
  rain_sensitivity : ℚ
  temp_sensitivity : ℚ
  wind_sensitivity : ℚ
  alert_threshold : ℚ
deriving DecidableEq

/-- `user_preferences.get(...)` default resolution,
`ai_weather_service.py` lines 106–109: sensitivities default to 0.5,
the alert threshold to 0.7. -/
def resolvePrefs (rain temp wind threshold : Option ℚ) : Prefs :=
  ⟨rain.getD 0.5, temp.getD 0.5, wind.getD 0.5, threshold.getD 0.7⟩

/-- A generated alert dict, `ai_weather_service.py`:
`{'type': ..., 'time': ..., 'message': ..., 'severity': ...}`. -/
structure Alert where
  type : String
  time : String
  message : String
  severity : ℚ
deriving DecidableEq

/-- One forecast time slot of `forecast['list']`, with the fields read by
`get_personalized_alerts` (lines 134–140): `dt_txt`, lowercased
`weather[0].main` and `weather[0].description`, `main.temp`,
`main.feels_like`, `main.humidity`, `wind.speed`, and the rain volume —
`Option.some v` models `'rain' in day` with `day['rain'].get('3h', 0) = v`,
`Option.none` models a slot without a `rain` key. -/
structure Slot where
  dt_txt : String
  weather_main : String
  weather_description : String
  temp : ℚ
  feels_like : ℚ
  humidity : ℚ
  wind_speed : ℚ
  rain : Option ℚ

/-- A provider-supplied alert object from `current_data['alerts']`
(`ai_weather_service.py` lines 124–131), with its optional `event` and
`description` fields. -/
structure ProviderAlert where
  event : Option String
  description : Option String

/-- The current-conditions data read in `get_personalized_alerts`
(lines 112–116): lowercased condition/description, temperature, wind speed
(`current_data.get('wind', {}).get('speed', 0)`), humidity, and the
provider alert list (`current_data['alerts']` when present, else empty). -/
structure CurrentData where
  weather_main : String
  weather_description : String
  temp : ℚ
  wind_speed : ℚ
  humidity : ℚ
  provider_alerts : List ProviderAlert

/-- `ai_weather_service.py` lines 203–212: the severe-storm alert dict. -/
def stormAlert (time : String) : Alert :=
  ⟨"severe_storm", time,
    "SEVERE WEATHER ALERT: Thunderstorm expected at " ++ time
      ++ ". Take shelter and stay indoors.", 1⟩

/-- `ai_weather_service.py` lines 214–223: the heavy-rain alert dict. -/
def heavyRainAlert (time : String) : Alert :=
  ⟨"heavy_rain", time,
    "SEVERE WEATHER ALERT: Heavy rainfall expected at " ++ time
      ++ ". Flooding possible, avoid travel if possible.", 0.9⟩

/-- `ai_weather_service.py` lines 225–233: the heatwave alert dict, with
severity fixed at 0.95. -/
def heatwaveAlert (temp humidity : ℚ) (time : String) : Alert :=
  ⟨"heatwave", time,
    "SEVERE WEATHER ALERT: Extreme heat conditions at " ++ time
      ++ ". Temperature " ++ toString temp ++ "°C with high humidity "
      ++ toString humidity
      ++ "%. Stay hydrated and avoid outdoor activities.", 0.95⟩

/-- `ai_weather_service.py` lines 235–245: the winter-storm alert dict. -/
def winterStormAlert (time : String) : Alert :=
  ⟨"winter_storm", time,
    "SEVERE WEATHER ALERT: Severe winter conditions at " ++ time
      ++ ". Heavy snow and limited visibility. Avoid unnecessary travel.",
    0.95⟩

/-- `ai_weather_service.py` lines 247–256: the hurricane alert dict. -/
def hurricaneAlert (time : String) : Alert :=
  ⟨"hurricane", time,
    "EMERGENCY WEATHER ALERT: Hurricane/cyclone conditions at " ++ time
      ++ ". Seek immediate shelter and follow evacuation orders.", 1⟩

/-- `ai_weather_service.py` lines 258–266: the tornado alert dict. -/
def tornadoAlert (time : String) : Alert :=
  ⟨"tornado", time,
    "EMERGENCY WEATHER ALERT: Tornado conditions at " ++ time
      ++ ". Seek shelter immediately in a basement or interior room.", 1⟩

/-- `ai_weather_service.py` lines 268–276: the extreme-cold alert dict. -/
def extremeColdAlert (temp : ℚ) (time : String) : Alert :=
  ⟨"extreme_cold", time,
    "SEVERE WEATHER ALERT: Extreme cold conditions at " ++ time
      ++ ". Temperature " ++ toString temp
      ++ "°C. Risk of frostbite and hypothermia.", 0.9⟩

/-- `ai_weather_service.py` lines 200–276,
`AIWeatherService._check_severe_weather_conditions`: the alerts appended for
one time slot, in program order.  The user preferences are passed by the
caller but never read by this check. -/
def checkSevereWeatherConditions (cond desc : String) (temp wind humidity : ℚ)
    (time : String) : List Alert :=
  (if (strContains cond "thunderstorm" || strContains desc "thunderstorm"
      || strContains cond "storm" || strContains desc "storm"
      || strContains cond "thunder" || strContains desc "thunder") then
    [stormAlert time]
  else [])
  ++ (if (strContains desc "heavy"
        && (strContains cond "rain" || strContains desc "rain"))
      || strContains desc "torrential" then
    [heavyRainAlert time]
  else [])
  ++ (if temp > 35 ∧ humidity > 60 then
    [heatwaveAlert temp humidity time]
  else [])
  ++ (if ((strContains cond "snow" || strContains desc "snow")
        && (strContains desc "heavy" || decide (wind > 10)))
      || strContains desc "blizzard" then
    [winterStormAlert time]
  else [])
  ++ (if (strContains cond "hurricane" || strContains desc "hurricane"
      || strContains cond "typhoon" || strContains desc "typhoon"
      || strContains cond "cyclone" || strContains desc "cyclone") then
    [hurricaneAlert time]
  else [])
  ++ (if strContains desc "tornado" then
    [tornadoAlert time]
  else [])
  ++ (if temp < -15 then
    [extremeColdAlert temp time]
  else [])

/-- `ai_weather_service.py` lines 124–131: a provider alert object passes
through with severity 1.0. -/
def providerAlertToAlert (a : ProviderAlert) : Alert :=
  ⟨"severe_alert", "now",
    "WEATHER ALERT: " ++ a.event.getD "Severe weather" ++ ". "
      ++ a.description.getD "", 1⟩

/-- `ai_weather_service.py` lines 148–157: rain alert for one forecast slot
(`'rain' in day`, sensitivity gate > 0.3, volume > 1.0 × sensitivity). -/
def rainAlerts (day : Slot) (p : Prefs) : List Alert :=
  match day.rain with
  | Option.none => []
  | Option.some rain_volume =>
    if p.rain_sensitivity > 0.3 ∧ rain_volume > 1.0 * p.rain_sensitivity then
      [⟨"rain", day.dt_txt,
        "Expected rainfall of " ++ toString rain_volume ++ "mm at "
          ++ day.dt_txt, min (rain_volume / 10) 1⟩]
    else []

/-- `ai_weather_service.py` lines 159–177: temperature alerts for one
forecast slot (gate `temp_sensitivity > 0.3`, then `if temp > 30*s` /
`elif temp < 5*s`). -/
def tempAlerts (day : Slot) (p : Prefs) : List Alert :=
  if p.temp_sensitivity > 0.3 then
    if day.temp > 30 * p.temp_sensitivity then
      [⟨"high_temp", day.dt_txt,
        "High temperature of " ++ toString day.temp ++ "°C (feels like "
          ++ toString day.feels_like ++ "°C) at " ++ day.dt_txt,
        min ((day.temp - 25) / 15) 1⟩]
    else if day.temp < 5 * p.temp_sensitivity then
      [⟨"low_temp", day.dt_txt,
        "Low temperature of " ++ toString day.temp ++ "°C (feels like "
          ++ toString day.feels_like ++ "°C) at " ++ day.dt_txt,
        min ((5 - day.temp) / 10) 1⟩]
    else []
  else []

/-- `ai_weather_service.py` lines 179–188: wind alert for one forecast slot
(gate `wind_sensitivity > 0.3`, wind > 10.0 × sensitivity). -/
def windAlerts (day : Slot) (p : Prefs) : List Alert :=
  if p.wind_sensitivity > 0.3 ∧ day.wind_speed > 10.0 * p.wind_sensitivity then
    [⟨"wind", day.dt_txt,
      "Strong winds of " ++ toString day.wind_speed ++ " m/s at "
        ++ day.dt_txt, min (day.wind_speed / 20) 1⟩]
  else []

/-- `ai_weather_service.py` lines 87–189: every alert appended to `alerts`
before the final filter/sort — severe checks on the current conditions
(time label `'now'`), provider alerts, then for each of the first 16
forecast slots the severe checks followed by the rain, temperature and wind
alerts, all in program order. -/
def generatedAlerts (cur : CurrentData) (forecastList : List Slot)
    (p : Prefs) : List Alert :=
  checkSevereWeatherConditions cur.weather_main cur.weather_description
      cur.temp cur.wind_speed cur.humidity "now"
  ++ cur.provider_alerts.map providerAlertToAlert
  ++ (forecastList.take 16).flatMap (fun day =>
      checkSevereWeatherConditions day.weather_main day.weather_description
          day.temp day.wind_speed day.humidity day.dt_txt
      ++ rainAlerts day p ++ tempAlerts day p ++ windAlerts day p)

/-- `ai_weather_service.py` lines 190–194: the returned list — generated
alerts filtered to severity ≥ `alert_threshold`, then sorted by severity,
most severe first (a stable descending sort, like Python's
`list.sort(..., reverse=True)`). -/
def get_personalized_alerts (cur : CurrentData) (forecastList : List Slot)
    (p : Prefs) : List Alert :=
  ((generatedAlerts cur forecastList p).filter
      (fun a => decide (a.severity ≥ p.alert_threshold))).mergeSort
    (fun a b => decide (b.severity ≤ a.severity))

/-- One forecast interval as consumed by `_enhance_forecast_with_ai`
(`ai_weather_service.py` lines 414–434): `hour` is the hour-of-day parsed
from `dt_txt` (so 0 ≤ hour < 24), `dtSecs` the interval's timestamp in
seconds (for the hours-from-now computation), plus the temperature and
feels-like fields. -/
structure FcItem where
  hour : Nat
  dtSecs : ℚ
  temp : ℚ
  feels_like : ℚ

/-- An interval after enhancement: adjusted temperature and feels-like and
the attached `ai_confidence`. -/
structure EnhItem where
  temp : ℚ
  feels_like : ℚ
  ai_confidence : ℚ

/-- `ai_weather_service.py` lines 419–425: the diurnal temperature
adjustment — `+0.5` for `10 <= hour <= 16`, else `-0.3` for
`22 <= hour or hour <= 4`, else `0`. -/
def tempAdjustment (hour : Nat) : ℚ :=
  if 10 ≤ hour ∧ hour ≤ 16 then 0.5
  else if 22 ≤ hour ∨ hour ≤ 4 then -0.3
  else 0

/-- The diurnal offset exactly as the specification words it (for comparison
with `tempAdjustment`): +0.5°C for hours 10–16 inclusive, −0.3°C for hours
22–23 and 0–4 inclusive, else 0. -/
def specTempOffset (hour : Nat) : ℚ :=
  if 10 ≤ hour ∧ hour ≤ 16 then 0.5
  else if (22 ≤ hour ∧ hour ≤ 23) ∨ hour ≤ 4 then -0.3
  else 0

/-- `ai_weather_service.py` line 433: the confidence attached to an interval
`hoursFromNow` hours ahead: `max(0.95 - hoursFromNow * 0.005, 0.6)`. -/
def aiConfidence (hoursFromNow : ℚ) : ℚ :=
  max (0.95 - hoursFromNow * 0.005) 0.6

/-- `ai_weather_service.py` lines 414–434: enhancement of one interval —
the same adjustment added to `temp` and `feels_like`, and the confidence
computed from `(dt - datetime.now()).total_seconds() / 3600`. -/
def enhanceItem (now : ℚ) (item : FcItem) : EnhItem :=
  ⟨item.temp + tempAdjustment item.hour,
    item.feels_like + tempAdjustment item.hour,
    aiConfidence ((item.dtSecs - now) / 3600)⟩

/-- `ai_weather_service.py` `_enhance_forecast_with_ai` applied to the whole
`forecast['list']`. -/
def enhanceForecastList (now : ℚ) (l : List FcItem) : List EnhItem :=
  l.map (enhanceItem now)

/-- `ai_weather_service.py` lines 441–493, `AIWeatherService._recommend_top`:
branch on condition keywords (rain/drizzle, then snow, then cloud, then
clear, then default) and temperature bands. -/
def recommendTop (temp : ℚ) (cond : String) : String :=
  if strContains cond "rain" || strContains cond "drizzle" then
    if temp > 25 then "Light waterproof jacket with a breathable t-shirt"
    else if temp > 18 then "Waterproof raincoat with a cotton shirt"
    else if temp > 10 then "Waterproof jacket with a warm sweater underneath"
    else "Insulated waterproof coat with thermal layer"
  else if strContains cond "snow" then
    "Insulated winter coat with thermal base layer"
  else if strContains cond "cloud" then
    if temp > 28 then "Light cotton t-shirt or tank top"
    else if temp > 22 then "Short-sleeve cotton shirt or light blouse"
    else if temp > 15 then "Long-sleeve shirt with light cardigan or hoodie"
    else if temp > 10 then "Sweater with light jacket or fleece"
    else if temp > 5 then "Thick sweater with insulated jacket"
    else "Thermal base layer with heavy winter coat"
  else if strContains cond "clear" then
    if temp > 30 then "Loose, light cotton t-shirt or linen shirt"
    else if temp > 25 then "Breathable cotton t-shirt or sleeveless top"
    else if temp > 20 then "Light short-sleeve shirt or polo"
    else if temp > 15 then "Long-sleeve cotton shirt or light sweater"
    else if temp > 10 then "Medium-weight sweater or pullover"
    else if temp > 5 then "Thick sweater with jacket or blazer"
    else "Thermal base layer with insulated winter coat"
  else
    if temp > 25 then "Light cotton t-shirt or short-sleeve shirt"
    else if temp > 18 then "Light long-sleeve shirt or blouse"
    else if temp > 10 then "Sweater or fleece jacket"
    else if temp > 5 then "Thick sweater with wind-resistant jacket"
    else "Multiple layers with winter coat"

/-- `ai_weather_service.py` lines 495–512,
`AIWeatherService._recommend_bottom`. -/
def recommendBottom (temp : ℚ) : String :=
  if temp > 30 then "Light, breathable shorts or skirt"
  else if temp > 25 then "Cotton shorts, skirt, or light chinos"
  else if temp > 20 then "Lightweight pants, jeans, or capris"
  else if temp > 15 then "Regular jeans, chinos, or casual pants"
  else if temp > 10 then "Jeans or medium-weight pants"
  else if temp > 5 then "Thick jeans or warm trousers"
  else if temp > 0 then "Thermal-lined pants or jeans with thermals underneath"
  else "Insulated winter pants with thermal base layer"

/-- `ai_weather_service.py` lines 514–555,
`AIWeatherService._recommend_accessories`: the accessory list built by the
conditional appends, in program order. -/
def recommendAccessories (temp : ℚ) (cond : String) (wind_speed : ℚ) :
    List String :=
  (if temp < 12 then ["Warm gloves or mittens"] else [])
  ++ (if temp < 8 then ["Thermal neck gaiter or scarf"] else [])
  ++ (if temp < 5 then ["Insulated beanie or winter hat"]
      else if temp > 28 then ["Breathable hat or cap for sun protection"]
      else [])
  ++ (if strContains cond "rain" || strContains cond "drizzle" then
        "Compact umbrella"
          :: (if temp < 15 then ["Waterproof boots"]
              else ["Water-resistant footwear"])
      else [])
  ++ (if strContains cond "snow" then
        ["Insulated waterproof boots", "Thermal socks"]
      else [])
  ++ (if (strContains cond "clear" || strContains cond "sun")
        && decide (temp > 20) then
        ["UV-protective sunglasses", "SPF 30+ sunscreen"]
          ++ (if temp > 28 then ["Water bottle to stay hydrated"] else [])
      else [])
  ++ (if wind_speed > 8 then
        (if temp < 15 then ["Wind-resistant face protection"] else [])
          ++ (if temp < 10 then ["Windproof gloves"]
              else ["Windbreaker or wind-resistant layer"])
      else [])

/-- The per-slot recommendation record built identically for the current,
morning and evening slots by `get_clothing_recommendations`
(`ai_weather_service.py` lines 343–350, 360–366, 374–380). -/
structure SlotRecommendation where
  top : String
  bottom : String
  accessories : List String
  umbrella : Bool

/-- `ai_weather_service.py` lines 344–350 (and the identical morning/evening
blocks): the recommendation for one time slot, with
`umbrella = 'rain' in cond or 'drizzle' in cond`. -/
def recommendationForSlot (temp : ℚ) (cond : String) (wind_speed : ℚ) :
    SlotRecommendation :=
  ⟨recommendTop temp cond, recommendBottom temp,
    recommendAccessories temp cond wind_speed,
    strContains cond "rain" || strContains cond "drizzle"⟩

/-- The observable outcome of one Flask handler in `app.py`:
HTTP status, the `error` field of the JSON body when present, the payload
when present, and whether the underlying service (and hence the cache or
the upstream API) was invoked. -/
structure ApiResponse (β : Type) where
  status : Nat
  errorField : Option String
  payload : Option β
  serviceCalled : Bool

/-- Python's `if not city:` on `request.args.get('city')`: true when the
parameter is absent or the empty string. -/
def cityMissing : Option String → Bool
  | Option.none => true
  | Option.some c => c == ""

/-- `app.py` lines 32–48, handler `get_current_weather`: 400 with an error
body and no service call when `city` is missing, otherwise the service
result (200) or its error (500). -/
def currentWeatherEndpoint (city : Option String)
    (svc : String → Except String β) : ApiResponse β :=
  if cityMissing city then
    ⟨400, Option.some "City parameter is required", Option.none, false⟩
  else
    match city with
    | Option.none =>
      ⟨400, Option.some "City parameter is required", Option.none, false⟩
    | Option.some c =>
      match svc c with
      | Except.ok d => ⟨200, Option.none, Option.some d, true⟩
      | Except.error e => ⟨500, Option.some e, Option.none, true⟩

/-- `app.py` lines 50–66, handler `get_forecast` (same shape). -/
def forecastEndpoint (city : Option String)
    (svc : String → Except String β) : ApiResponse β :=
  if cityMissing city then
    ⟨400, Option.some "City parameter is required", Option.none, false⟩
  else
    match city with
    | Option.none =>
      ⟨400, Option.some "City parameter is required", Option.none, false⟩
    | Option.some c =>
      match svc c with
      | Except.ok d => ⟨200, Option.none, Option.some d, true⟩
      | Except.error e => ⟨500, Option.some e, Option.none, true⟩

/-- `app.py` lines 68–89, handler `get_all_weather_data` (same shape, the
service argument standing for the current+forecast pair fetch). -/
def allWeatherEndpoint (city : Option String)
    (svc : String → Except String β) : ApiResponse β :=
  if cityMissing city then
    ⟨400, Option.some "City parameter is required", Option.none, false⟩
  else
    match city with
    | Option.none =>
      ⟨400, Option.some "City parameter is required", Option.none, false⟩
    | Option.some c =>
      match svc c with
      | Except.ok d => ⟨200, Option.none, Option.some d, true⟩
      | Except.error e => ⟨500, Option.some e, Option.none, true⟩

/-- `app.py` lines 97–113, handler `get_enhanced_forecast` (same shape). -/
def enhancedForecastEndpoint (city : Option String)
    (svc : String → Except String β) : ApiResponse β :=
  if cityMissing city then
    ⟨400, Option.some "City parameter is required", Option.none, false⟩
  else
    match city with
    | Option.none =>
      ⟨400, Option.some "City parameter is required", Option.none, false⟩
    | Option.some c =>
      match svc c with
      | Except.ok d => ⟨200, Option.none, Option.some d, true⟩
      | Except.error e => ⟨500, Option.some e, Option.none, true⟩

/-- `app.py` lines 136–152, handler `get_clothing_recommendations`
(same shape). -/
def clothingEndpoint (city : Option String)
    (svc : String → Except String β) : ApiResponse β :=
  if cityMissing city then
    ⟨400, Option.some "City parameter is required", Option.none, false⟩
  else
    match city with
    | Option.none =>
      ⟨400, Option.some "City parameter is required", Option.none, false⟩
    | Option.some c =>
      match svc c with
      | Except.ok d => ⟨200, Option.none, Option.some d, true⟩
      | Except.error e => ⟨500, Option.some e, Option.none, true⟩

/-- The JSON body of `POST /api/weather/alerts`: `Option.none` models an
absent/falsy body; in a present body, `city` is `Option.none` when the
`'city'` key is absent, and `preferences` when the `'preferences'` key is
present.  Empty body dicts are covered by both keys absent. -/
structure AlertsRequestBody where
  city : Option String
  preferences : Option Prefs

/-- `app.py` lines 115–134, handler `get_personalized_alerts`:
`if not data or 'city' not in data:` returns 400 without touching any
service; otherwise the (city, preferences-or-`{}`) pair is handed to the
service. -/
def alertsEndpoint (body : Option AlertsRequestBody)
    (svc : String → Option Prefs → Except String β) : ApiResponse β :=
  match body with
  | Option.none =>
    ⟨400, Option.some "City parameter is required", Option.none, false⟩
  | Option.some data =>
    match data.city with
    | Option.none =>
      ⟨400, Option.some "City parameter is required", Option.none, false⟩
    | Option.some c =>
      match svc c data.preferences with
      | Except.ok d => ⟨200, Option.none, Option.some d, true⟩
      | Except.error e => ⟨500, Option.some e, Option.none, true⟩

/-! ## Helper lemmas -/

theorem eq_of_mem_ite_singleton {α : Type} {c : Prop} [Decidable c]
    {a x : α} (h : a ∈ if c then [x] else []) : a = x := by
  split at h
  · simpa using h
  · simp at h

theorem CacheService.find_del_self {α : Type} (c : CacheService α)
    (k : String) : (c.del k).find k = Option.none := by
  simp only [CacheService.find, CacheService.del, Option.map_eq_none']
  rw [List.find?_eq_none]
  intro x hx
  have hm := List.mem_filter.mp hx
  simpa using hm.2

theorem CacheService.find_set_self {α : Type} (c : CacheService α)
    (k : String) (v : α) (t : ℚ) :
    (c.set k v t).find k = Option.some (v, t) := by
  simp [CacheService.find, CacheService.set]

/-! ## Claim theorems -/

/-- C1 (code bug evaluated at the failing input): an upstream failure whose
message embeds the literal API key is surfaced verbatim — key included — by
`AIWeatherService.get_enhanced_forecast` (line 67) and propagated by
`get_personalized_alerts` (line 198), while the two `WeatherService`
operations do redact the key as the claim demands. -/
theorem enhanced_forecast_error_retains_api_key :
    strContains (enhancedForecastErrorMessage
        "401 Client Error: Unauthorized for url: https://api.openweathermap.org/data/2.5/forecast?q=Paris&appid=SECRET123&units=metric")
      "SECRET123" = true
    ∧ strContains (personalizedAlertsErrorMessage
        (enhancedForecastErrorMessage
          "401 Client Error: Unauthorized for url: https://api.openweathermap.org/data/2.5/forecast?q=Paris&appid=SECRET123&units=metric"))
      "SECRET123" = true
    ∧ strContains (currentWeatherErrorMessage "SECRET123"
        "401 Client Error: Unauthorized for url: https://api.openweathermap.org/data/2.5/weather?q=Paris&appid=SECRET123&units=metric")
      "SECRET123" = false
    ∧ strContains (forecastErrorMessage "SECRET123"
        "401 Client Error: Unauthorized for url: https://api.openweathermap.org/data/2.5/forecast?q=Paris&appid=SECRET123&units=metric")
      "SECRET123" = false := by
  set_option maxRecDepth 100000 in decide

/-- C4: `get` immediately after `set k v` returns `v` (for a positive TTL),
and a `get` whose stored entry has age ≥ TTL returns absence and evicts the
entry, with no `cleanup` call involved. -/
theorem cache_get_set_and_lazy_expiry (α : Type) (c : CacheService α)
    (k : String) (v : α) (t now : ℚ) :
    (0 < c.expiry → ((c.set k v t).get k t).1 = Option.some v)
    ∧ (∀ v₀ t₀, c.find k = Option.some (v₀, t₀) → c.expiry ≤ now - t₀ →
        (c.get k now).1 = Option.none
        ∧ ((c.get k now).2).find k = Option.none) := by
  constructor
  · intro hexp
    unfold CacheService.get
    rw [CacheService.find_set_self]
    have hexp' : (0 : ℚ) < (c.set k v t).expiry := by
      simp only [CacheService.set]
      exact hexp
    simp [hexp']
  · intro v₀ t₀ hfind hage
    have hnlt : ¬ (now - t₀ < c.expiry) := by linarith
    have hget : c.get k now = (Option.none, c.del k) := by
      unfold CacheService.get
      rw [hfind]
      simp [hnlt]
    refine ⟨by rw [hget], ?_⟩
    rw [hget]
    exact CacheService.find_del_self c k

/-- C4 witness: with TTL 300, a `set` at time 0 is returned by a `get` at
time 0, and a `get` at time 300 returns absence and evicts the entry. -/
theorem cache_get_set_and_lazy_expiry_witness :
    ((((CacheService.init PyVal 300).set "k" (PyVal.pynum 20) 0).set "k"
        (PyVal.pynum 20) 0).get "k" 0).1 = Option.some (PyVal.pynum 20)
    ∧ ((((CacheService.init PyVal 300).set "k" (PyVal.pynum 20) 0).get "k"
        300).1 = Option.none
      ∧ ((((CacheService.init PyVal 300).set "k" (PyVal.pynum 20) 0).get "k"
        300).2).find "k" = Option.none) :=
  ⟨(cache_get_set_and_lazy_expiry PyVal
      ((CacheService.init PyVal 300).set "k" (PyVal.pynum 20) 0) "k"
      (PyVal.pynum 20) 0 300).1
      (by norm_num [CacheService.set, CacheService.init]),
    (cache_get_set_and_lazy_expiry PyVal
      ((CacheService.init PyVal 300).set "k" (PyVal.pynum 20) 0) "k"
      (PyVal.pynum 20) 0 300).2 (PyVal.pynum 20) 0 (by rfl)
      (by norm_num [CacheService.set, CacheService.init])⟩

/-- C10: a stored `None` is surfaced exactly like an absent key (as `None`),
and any falsy cached value (`None`, `{}`, `[]`, `0`, `""`, `False`) makes
`get_current_weather` / `get_forecast` refetch upstream and overwrite the
cache entry instead of returning the cached value. -/
theorem cache_stored_none_and_falsy_refetch (c : CacheService PyVal)
    (k city : String) (t now : ℚ) (upstream : PyVal) :
    (((c.set k PyVal.pynone t).getPy k now).1 = PyVal.pynone)
    ∧ (c.find k = Option.none → (c.getPy k now).1 = PyVal.pynone)
    ∧ (∀ v t₀, c.find ("current_weather_" ++ city) = Option.some (v, t₀) →
        now - t₀ < c.expiry → v.truthy = false →
        (WeatherService.get_current_weather c city now upstream).1 = upstream
        ∧ ((WeatherService.get_current_weather c city now upstream).2).find
            ("current_weather_" ++ city) = Option.some (upstream, now))
    ∧ (∀ v t₀, c.find ("forecast_" ++ city) = Option.some (v, t₀) →
        now - t₀ < c.expiry → v.truthy = false →
        (WeatherService.get_forecast c city now upstream).1 = upstream
        ∧ ((WeatherService.get_forecast c city now upstream).2).find
            ("forecast_" ++ city) = Option.some (upstream, now)) := by
  refine ⟨?_, ?_, ?_, ?_⟩
  · unfold CacheService.getPy CacheService.get
    rw [CacheService.find_set_self]
    by_cases hc : now - t < (c.set k PyVal.pynone t).expiry <;> simp [hc]
  · intro hfind
    unfold CacheService.getPy CacheService.get
    rw [hfind]
    rfl
  · intro v t₀ hfind hfresh hfalsy
    have hgp : c.getPy ("current_weather_" ++ city) now = (v, c) := by
      unfold CacheService.getPy CacheService.get
      rw [hfind]
      simp [hfresh]
    unfold WeatherService.get_current_weather
    rw [hgp]
    simp [hfalsy, CacheService.find_set_self]
  · intro v t₀ hfind hfresh hfalsy
    have hgp : c.getPy ("forecast_" ++ city) now = (v, c) := by
      unfold CacheService.getPy CacheService.get
      rw [hfind]
      simp [hfresh]
    unfold WeatherService.get_forecast
    rw [hgp]
    simp [hfalsy, CacheService.find_set_self]

theorem heatwave_mem_checkSevere (cond desc : String)
    (temp wind humidity : ℚ) (time : String)
    (ht : temp > 35) (hh : humidity > 60) :
    heatwaveAlert temp humidity time ∈
      checkSevereWeatherConditions cond desc temp wind humidity time := by
  unfold checkSevereWeatherConditions
  refine List.mem_append_left _ (List.mem_append_left _
    (List.mem_append_left _ (List.mem_append_left _
      (List.mem_append_right _ ?_))))
  rw [if_pos ⟨ht, hh⟩]
  exact List.mem_singleton_self _

/-- C2 counterexample: at temperature exactly 35 °C (which satisfies the
claim's "≥ 35 °C") with humidity 61 % > 60 %, the code emits no alert at
all for the slot — `_check_severe_weather_conditions` line 226 requires
`temp > 35`, strictly. -/
theorem heat_alert_at_35_cex :
    (35 : ℚ) ≥ 35 ∧ (61 : ℚ) > 60
    ∧ generatedAlerts ⟨"clear", "clear sky", 35, 0, 61, []⟩ []
        (resolvePrefs Option.none Option.none Option.none Option.none)
      = [] := by
  refine ⟨le_refl _, by norm_num, ?_⟩
  set_option maxHeartbeats 2000000 in
  set_option maxRecDepth 100000 in
  decide

/-- C2 amended: for every evaluated slot — the current conditions and each
of the first 16 forecast intervals — a temperature strictly above 35 °C
together with humidity above 60 % yields a heat alert of fixed severity
0.95, independent of the user's sensitivity settings. -/
theorem heat_alert_amended (cur : CurrentData) (fc : List Slot) (p : Prefs) :
    (cur.temp > 35 → cur.humidity > 60 →
      heatwaveAlert cur.temp cur.humidity "now" ∈ generatedAlerts cur fc p)
    ∧ (∀ day ∈ fc.take 16, day.temp > 35 → day.humidity > 60 →
      heatwaveAlert day.temp day.humidity day.dt_txt
        ∈ generatedAlerts cur fc p)
    ∧ (heatwaveAlert cur.temp cur.humidity "now").severity = 0.95 := by
  refine ⟨?_, ?_, rfl⟩
  · intro ht hh
    exact List.mem_append_left _ (List.mem_append_left _
      (heatwave_mem_checkSevere _ _ _ _ _ _ ht hh))
  · intro day hday ht hh
    refine List.mem_append_right _ ?_
    refine List.mem_flatMap.mpr ⟨day, hday, ?_⟩
    exact List.mem_append_left _
      (List.mem_append_left _ (List.mem_append_left _
        (heatwave_mem_checkSevere _ _ _ _ _ _ ht hh)))

/-- C2 witness for the amended claim: a current slot at 36 °C and 61 %
humidity receives the heatwave alert. -/
theorem heat_alert_amended_witness :
    heatwaveAlert 36 61 "now" ∈
      generatedAlerts ⟨"clear", "clear sky", 36, 0, 61, []⟩ []
        (resolvePrefs Option.none Option.none Option.none Option.none) :=
  (heat_alert_amended ⟨"clear", "clear sky", 36, 0, 61, []⟩ []
      (resolvePrefs Option.none Option.none Option.none Option.none)).1
    (by norm_num) (by norm_num)

/-- C3: the returned list of `get_personalized_alerts` is a permutation of
exactly the generated alerts whose severity is ≥ the alert threshold, it is
arranged in non-increasing order of severity, every returned alert meets
the threshold, and the threshold defaults to 0.7 (sensitivities to 0.5). -/
theorem personalized_alerts_filter_and_sort (cur : CurrentData)
    (fc : List Slot) (p : Prefs) :
    (get_personalized_alerts cur fc p).Perm
      ((generatedAlerts cur fc p).filter
        (fun a => decide (a.severity ≥ p.alert_threshold)))
    ∧ (get_personalized_alerts cur fc p).Pairwise
        (fun a b => b.severity ≤ a.severity)
    ∧ (∀ a ∈ get_personalized_alerts cur fc p,
        p.alert_threshold ≤ a.severity)
    ∧ resolvePrefs Option.none Option.none Option.none Option.none
        = ⟨0.5, 0.5, 0.5, 0.7⟩ := by
  refine ⟨List.mergeSort_perm _ _, ?_, ?_, rfl⟩
  · refine List.Pairwise.imp ?_ (List.sorted_mergeSort ?_ ?_ _)
    · intro a b hab
      exact of_decide_eq_true hab
    · intro a b c hab hbc
      simp only [decide_eq_true_eq] at *
      exact le_trans hbc hab
    · intro a b
      rcases le_total b.severity a.severity with h | h <;> simp [h]
  · intro a ha
    unfold get_personalized_alerts at ha
    rw [List.mem_mergeSort] at ha
    exact of_decide_eq_true (List.mem_filter.mp ha).2

/-- C3 witness: with default preferences, a thunderstorm alert (severity 1)
is returned and meets the 0.7 threshold. -/
theorem personalized_alerts_filter_and_sort_witness :
    (resolvePrefs Option.none Option.none Option.none
        Option.none).alert_threshold ≤ (stormAlert "now").severity :=
  (personalized_alerts_filter_and_sort
      ⟨"thunderstorm", "thunderstorm", 20, 0, 50, []⟩ []
      (resolvePrefs Option.none Option.none Option.none Option.none)).2.2.1
    (stormAlert "now")
    (by
      unfold get_personalized_alerts
      rw [List.mem_mergeSort]
      refine List.mem_filter.mpr ⟨?_, ?_⟩
      · refine List.mem_append_left _ (List.mem_append_left _ ?_)
        unfold checkSevereWeatherConditions
        refine List.mem_append_left _ (List.mem_append_left _
          (List.mem_append_left _ (List.mem_append_left _
            (List.mem_append_left _ (List.mem_append_left _ ?_)))))
        rw [if_pos (by decide)]
        exact List.mem_singleton_self _
      · exact decide_eq_true (by norm_num [stormAlert, resolvePrefs]))

theorem severity_le_one_of_mem_check (cond desc : String)
    (temp wind humidity : ℚ) (time : String) (a : Alert)
    (h : a ∈ checkSevereWeatherConditions cond desc temp wind humidity time) :
    a.severity ≤ 1 := by
  unfold checkSevereWeatherConditions at h
  simp only [List.mem_append] at h
  rcases h with ((((((h | h) | h) | h) | h) | h) | h) <;>
    (rw [eq_of_mem_ite_singleton h]
     norm_num [stormAlert, heavyRainAlert, heatwaveAlert, winterStormAlert,
       hurricaneAlert, tornadoAlert, extremeColdAlert])

theorem severity_le_one_of_mem_rain (day : Slot) (p : Prefs) (a : Alert)
    (h : a ∈ rainAlerts day p) : a.severity ≤ 1 := by
  unfold rainAlerts at h
  cases hday : day.rain with
  | none => rw [hday] at h; simp at h
  | some vol =>
    rw [hday] at h
    rw [eq_of_mem_ite_singleton h]
    exact min_le_right _ _

theorem severity_le_one_of_mem_temp (day : Slot) (p : Prefs) (a : Alert)
    (h : a ∈ tempAlerts day p) : a.severity ≤ 1 := by
  unfold tempAlerts at h
  split at h
  · split at h
    · simp at h
      rw [h]
      exact min_le_right _ _
    · split at h
      · simp at h
        rw [h]
        exact min_le_right _ _
      · simp at h
  · simp at h

theorem severity_le_one_of_mem_wind (day : Slot) (p : Prefs) (a : Alert)
    (h : a ∈ windAlerts day p) : a.severity ≤ 1 := by
  unfold windAlerts at h
  split at h
  · simp at h
    rw [h]
    exact min_le_right _ _
  · simp at h

theorem severity_le_one_of_mem_generated (cur : CurrentData)
    (fc : List Slot) (p : Prefs) (a : Alert)
    (h : a ∈ generatedAlerts cur fc p) : a.severity ≤ 1 := by
  unfold generatedAlerts at h
  simp only [List.mem_append] at h
  rcases h with (h | h) | h
  · exact severity_le_one_of_mem_check _ _ _ _ _ _ _ h
  · obtain ⟨x, _, rfl⟩ := List.mem_map.mp h
    norm_num [providerAlertToAlert]
  · obtain ⟨day, _, hmem⟩ := List.mem_flatMap.mp h
    simp only [List.mem_append] at hmem
    rcases hmem with ((h | h) | h) | h
    · exact severity_le_one_of_mem_check _ _ _ _ _ _ _ h
    · exact severity_le_one_of_mem_rain _ _ _ h
    · exact severity_le_one_of_mem_temp _ _ _ h
    · exact severity_le_one_of_mem_wind _ _ _ h

/-- C7: with all preference knobs in [0,1], every alert returned by
`get_personalized_alerts` has severity in [0,1] — the generation stage
never produces severity > 1, and the threshold filter (threshold ≥ 0)
removes anything below 0, including the possibly-negative high-temperature
severities. -/
theorem returned_alert_severity_in_unit_interval (cur : CurrentData)
    (fc : List Slot) (p : Prefs)
    (h₁ : 0 ≤ p.rain_sensitivity) (h₂ : p.rain_sensitivity ≤ 1)
    (h₃ : 0 ≤ p.temp_sensitivity) (h₄ : p.temp_sensitivity ≤ 1)
    (h₅ : 0 ≤ p.wind_sensitivity) (h₆ : p.wind_sensitivity ≤ 1)
    (h₇ : 0 ≤ p.alert_threshold) (h₈ : p.alert_threshold ≤ 1) :
    ∀ a ∈ get_personalized_alerts cur fc p,
      0 ≤ a.severity ∧ a.severity ≤ 1 := by
  intro a ha
  unfold get_personalized_alerts at ha
  rw [List.mem_mergeSort] at ha
  have hf := List.mem_filter.mp ha
  constructor
  · exact le_trans h₇ (of_decide_eq_true hf.2)
  · exact severity_le_one_of_mem_generated _ _ _ _ hf.1

/-- C7 witness: with default preferences the returned thunderstorm alert's
severity lies in [0,1]. -/
theorem returned_alert_severity_in_unit_interval_witness :
    0 ≤ (stormAlert "now").severity ∧ (stormAlert "now").severity ≤ 1 :=
  returned_alert_severity_in_unit_interval
    ⟨"thunderstorm", "thunderstorm", 20, 0, 50, []⟩ [] ⟨0.5, 0.5, 0.5, 0.7⟩
    (by norm_num) (by norm_num) (by norm_num) (by norm_num) (by norm_num)
    (by norm_num) (by norm_num) (by norm_num) (stormAlert "now")
    (by
      unfold get_personalized_alerts
      rw [List.mem_mergeSort]
      refine List.mem_filter.mpr ⟨?_, ?_⟩
      · refine List.mem_append_left _ (List.mem_append_left _ ?_)
        unfold checkSevereWeatherConditions
        refine List.mem_append_left _ (List.mem_append_left _
          (List.mem_append_left _ (List.mem_append_left _
            (List.mem_append_left _ (List.mem_append_left _ ?_)))))
        rw [if_pos (by decide)]
        exact List.mem_singleton_self _
      · exact decide_eq_true (by norm_num [stormAlert]))

/-- C10 witness: a fresh cached empty dict under the current-weather key is
treated as a miss — the upstream value is returned. -/
theorem cache_stored_none_and_falsy_refetch_witness :
    (WeatherService.get_current_weather
        ⟨[("current_weather_Paris", PyVal.pydict [], 0)], 600⟩ "Paris" 10
        (PyVal.pynum 21)).1 = PyVal.pynum 21 :=
  ((cache_stored_none_and_falsy_refetch
      ⟨[("current_weather_Paris", PyVal.pydict [], 0)], 600⟩ "k" "Paris" 0 10
      (PyVal.pynum 21)).2.2.1 (PyVal.pydict []) 0 (by rfl) (by norm_num)
    (by rfl)).1

/-- C5: for every forecast interval (hour-of-day < 24), enhancement adds
exactly +0.5 °C for hours 10–16, −0.3 °C for hours 22–23 and 0–4, and 0
otherwise, identically to the temperature and feels-like fields, across the
whole forecast list. -/
theorem enhancement_diurnal_offset (now : ℚ) (item : FcItem)
    (h : item.hour < 24) :
    (enhanceItem now item).temp = item.temp + specTempOffset item.hour
    ∧ (enhanceItem now item).feels_like
        = item.feels_like + specTempOffset item.hour
    ∧ (∀ l : List FcItem,
        enhanceForecastList now l = l.map (enhanceItem now)) := by
  have hadj : tempAdjustment item.hour = specTempOffset item.hour := by
    unfold tempAdjustment specTempOffset
    split_ifs with h1 h2 h3 <;> first | rfl | omega
  exact ⟨by simp [enhanceItem, hadj], by simp [enhanceItem, hadj],
    fun l => rfl⟩

/-- C5 witness: an interval at hour 12 gains the hour-12 offset on
temperature, one at hour 23 gets the hour-23 offset on feels-like. -/
theorem enhancement_diurnal_offset_witness :
    (enhanceItem 0 ⟨12, 0, 20, 19⟩).temp = 20 + specTempOffset 12
    ∧ (enhanceItem 0 ⟨23, 0, 20, 19⟩).feels_like = 19 + specTempOffset 23 :=
  ⟨(enhancement_diurnal_offset 0 ⟨12, 0, 20, 19⟩ (by norm_num)).1,
    (enhancement_diurnal_offset 0 ⟨23, 0, 20, 19⟩ (by norm_num)).2.1⟩

/-- C6: the confidence attached to an interval equals
`max(0.95 − hoursFromNow × 0.005, 0.6)` with hoursFromNow computed from the
interval's timestamp minus the current time; 0 hours out gives 0.95,
≥ 70 hours out gives exactly 0.6, and negative hoursFromNow gives a value
strictly above 0.95 (no upper clamp). -/
theorem forecast_confidence_formula (now : ℚ) (item : FcItem) (h : ℚ) :
    (enhanceItem now item).ai_confidence
        = max (0.95 - ((item.dtSecs - now) / 3600) * 0.005) 0.6
    ∧ aiConfidence 0 = 0.95
    ∧ (70 ≤ h → aiConfidence h = 0.6)
    ∧ (h < 0 → 0.95 < aiConfidence h) := by
  refine ⟨rfl, ?_, ?_, ?_⟩
  · unfold aiConfidence
    rw [show (0.95 : ℚ) - 0 * 0.005 = 0.95 by ring]
    exact max_eq_left (by norm_num)
  · intro hh
    unfold aiConfidence
    rw [max_eq_right (by linarith)]
  · intro hh
    unfold aiConfidence
    have hgt : (0.95 : ℚ) < 0.95 - h * 0.005 := by linarith
    exact lt_of_lt_of_le hgt (le_max_left _ _)

/-- C6 witness: exactly 0.6 at 70 hours out, strictly above 0.95 one hour
in the past. -/
theorem forecast_confidence_formula_witness :
    aiConfidence 70 = 0.6 ∧ 0.95 < aiConfidence (-1) :=
  ⟨(forecast_confidence_formula 0 ⟨0, 0, 0, 0⟩ 70).2.2.1 (by norm_num),
    (forecast_confidence_formula 0 ⟨0, 0, 0, 0⟩ (-1)).2.2.2 (by norm_num)⟩

/-- C8 counterexample: a condition text containing "clear" does not always
give the loose light-cotton top at 32 °C — the rain/drizzle branch of
`_recommend_top` is checked first, so "rain clear" gets the waterproof
jacket instead. -/
theorem clothing_clear_with_rain_cex :
    strContains "rain clear" "clear" = true
    ∧ (recommendationForSlot 32 "rain clear" 0).top
        ≠ "Loose, light cotton t-shirt or linen shirt" := by
  constructor
  · decide
  · decide

/-- C8 amended: when the condition text contains "clear" and none of the
earlier-matched keywords (rain, drizzle, snow, cloud), a 32 °C slot gets
the loose light-cotton top and the sunglasses/sunscreen/water-bottle
accessories; and any slot whose condition contains "rain" or "drizzle" has
the umbrella flag set. -/
theorem clothing_rules_amended :
    (∀ cond (wind : ℚ), strContains cond "clear" = true →
      strContains cond "rain" = false → strContains cond "drizzle" = false →
      strContains cond "snow" = false → strContains cond "cloud" = false →
      (recommendationForSlot 32 cond wind).top
          = "Loose, light cotton t-shirt or linen shirt"
      ∧ "UV-protective sunglasses"
          ∈ (recommendationForSlot 32 cond wind).accessories
      ∧ "SPF 30+ sunscreen"
          ∈ (recommendationForSlot 32 cond wind).accessories
      ∧ "Water bottle to stay hydrated"
          ∈ (recommendationForSlot 32 cond wind).accessories)
    ∧ (∀ (temp : ℚ) cond (wind : ℚ),
      (strContains cond "rain" || strContains cond "drizzle") = true →
      (recommendationForSlot temp cond wind).umbrella = true) := by
  constructor
  · intro cond wind hclear hrain hdriz hsnow hcloud
    refine ⟨?_, ?_, ?_, ?_⟩
    · simp only [recommendationForSlot, recommendTop, hclear, hrain, hdriz,
        hsnow, hcloud]
      norm_num
    · simp only [recommendationForSlot, recommendAccessories, hclear, hrain,
        hdriz, hsnow]
      norm_num
    · simp only [recommendationForSlot, recommendAccessories, hclear, hrain,
        hdriz, hsnow]
      norm_num
    · simp only [recommendationForSlot, recommendAccessories, hclear, hrain,
        hdriz, hsnow]
      norm_num
  · intro temp cond wind h
    simpa [recommendationForSlot] using h

/-- C8 witness: condition "clear" at 32 °C gets the loose cotton top, and a
"rain" slot has the umbrella flag. -/
theorem clothing_rules_amended_witness :
    (recommendationForSlot 32 "clear" 0).top
        = "Loose, light cotton t-shirt or linen shirt"
    ∧ (recommendationForSlot 20 "rain" 0).umbrella = true :=
  ⟨(clothing_rules_amended.1 "clear" 0 (by decide) (by decide) (by decide)
      (by decide) (by decide)).1,
    clothing_rules_amended.2 20 "rain" 0 (by decide)⟩

/-- C9: on every weather endpoint — GET current, forecast, all,
enhanced-forecast, clothing, and POST alerts (body absent or without a
city key) — a missing city parameter yields status 400 with an error field
in the body, and the underlying service (hence neither the upstream API nor
the cache) is never invoked. -/
theorem missing_city_yields_400 (β : Type) (svc : String → Except String β)
    (svcp : String → Option Prefs → Except String β) (prefs : Option Prefs) :
    currentWeatherEndpoint Option.none svc
        = ⟨400, Option.some "City parameter is required", Option.none, false⟩
    ∧ forecastEndpoint Option.none svc
        = ⟨400, Option.some "City parameter is required", Option.none, false⟩
    ∧ allWeatherEndpoint Option.none svc
        = ⟨400, Option.some "City parameter is required", Option.none, false⟩
    ∧ enhancedForecastEndpoint Option.none svc
        = ⟨400, Option.some "City parameter is required", Option.none, false⟩
    ∧ clothingEndpoint Option.none svc
        = ⟨400, Option.some "City parameter is required", Option.none, false⟩
    ∧ alertsEndpoint Option.none svcp
        = ⟨400, Option.some "City parameter is required", Option.none, false⟩
    ∧ alertsEndpoint (Option.some ⟨Option.none, prefs⟩) svcp
        = ⟨400, Option.some "City parameter is required", Option.none,
            false⟩ :=
  ⟨rfl, rfl, rfl, rfl, rfl, rfl, rfl⟩
